import Mathlib

/-!
Verification of the `meteo_proxy` weather-proxy service against its
specification.  The Python sources under `src/weather_proxy/` are shallowly
embedded: JSON values become an inductive `Json` type, Python exceptions
become the inductive `Exc`, fallible code returns `Except Exc _`, and the
stateful circuit breaker becomes an explicit state machine with explicit
timestamps.  Third-party libraries whose sources are not part of the
repository (`pybreaker`, `tenacity`, `redis`, `json`) are modelled from the
specification, as marked on each definition.
-/

namespace MeteoProxy

/-- JSON values as produced by `response.json()` / `json.loads`.  Numbers are
modelled as integers: no verified property depends on fractional values. -/
inductive Json where
  | null : Json
  | bool (b : Bool) : Json
  | num (n : Int) : Json
  | str (s : String) : Json
  | arr (xs : List Json) : Json
  | obj (fields : List (String × Json)) : Json

/-- A Python `dict` decoded from JSON: association list of fields. -/
abbrev Dict := List (String × Json)

/-- Python exceptions relevant to the service, including the `httpx`
exception classes named in `resilience/circuit_breaker.py` and the service's
own exception classes.  `cityNotFound` is a subclass of `geocodingError` in
the source; the subclass relation is reflected where exceptions are caught. -/
inductive Exc where
  | httpxTimeout : Exc
  | httpxConnect : Exc
  | httpxStatus (status : Nat) : Exc
  | httpxOtherRequest : Exc
  | circuitBreakerError : Exc
  | circuitBreakerOpen : Exc
  | weatherServiceError (msg : String) : Exc
  | geocodingError (msg : String) : Exc
  | cityNotFound (msg : String) : Exc
  | other (msg : String) : Exc
deriving DecidableEq, Repr

/-- First binding of a key in a decoded JSON object (Python dict lookup). -/
def dictGet (fields : Dict) (k : String) : Option Json :=
  (fields.find? (fun p => p.1 == k)).map (fun p => p.2)

/-- Python `d.get(k, dflt)`: the default applies only when the key is absent;
a key bound to JSON `null` yields `null`, not the default. -/
def pyDictGetD (d : Dict) (k : String) (dflt : Json) : Json :=
  match dictGet d k with
  | some v => v
  | none => dflt

/-- Python `d.get(k)` seen through an `is not None` check: both an absent key
and a key bound to JSON `null` give Python `None`. -/
def pyDictGetOpt (d : Dict) (k : String) : Option Json :=
  match dictGet d k with
  | some Json.null => none
  | some v => some v
  | none => none

/-- Python `obj[k]` for a string key: `KeyError` on a dict missing the key,
`TypeError` on any non-dict value. -/
def pyIndexStr (j : Json) (k : String) : Except Exc Json :=
  match j with
  | .obj fs =>
    match dictGet fs k with
    | some v => Except.ok v
    | none => Except.error (Exc.other ("KeyError: " ++ k))
  | _ => Except.error (Exc.other "TypeError: value is not subscriptable by a string key")

/-- Python `obj.get(k, dflt)` on an arbitrary value: `AttributeError` when the
value is not a dict. -/
def pyGetAttrD (j : Json) (k : String) (dflt : Json) : Except Exc Json :=
  match j with
  | .obj fs => Except.ok (pyDictGetD fs k dflt)
  | _ => Except.error (Exc.other "AttributeError: value has no attribute get")

/-- Python truthiness of a decoded JSON value, as used by `bool(...)`. -/
def Json.truthy : Json → Bool
  | .null => false
  | .bool b => b
  | .num n => n != 0
  | .str s => s != ""
  | .arr xs => !xs.isEmpty
  | .obj fs => !fs.isEmpty

/-- `Option Json` to JSON for response assembly (Python `None` ↦ `null`). -/
def optJson (o : Option Json) : Json :=
  match o with
  | some v => v
  | none => Json.null

/-! ## String normalization

`str.strip()` and `str.lower()` from `cache_service.py` and `routes/weather.py`,
modelled on the character list of a string.  Lowercasing is the basic-latin
mapping (matching `Char.toLower`); the claims only involve such strings. -/

/-- Python `str.strip()`: drop whitespace from both ends. -/
def pyStripList (l : List Char) : List Char :=
  ((l.dropWhile Char.isWhitespace).reverse.dropWhile Char.isWhitespace).reverse

/-- Python `str.strip()` on strings. -/
def pyStrip (s : String) : String :=
  String.mk (pyStripList s.data)

/-- Python `str.lower()` on strings (basic-latin letters). -/
def pyLower (s : String) : String :=
  String.mk (s.data.map Char.toLower)

/-- `CacheService._make_key`: `f"weather:{key.lower().strip()}"`. -/
def makeKey (key : String) : String :=
  "weather:" ++ pyStrip (pyLower key)

/-! ## Weather service data (`services/weather_service.py`) -/

/-- The static WMO weather-code table `WMO_CODES`. -/
def WMO_CODES : List (Int × String) :=
  [(0, "Clear sky"), (1, "Mainly clear"), (2, "Partly cloudy"), (3, "Overcast"),
   (45, "Fog"), (48, "Depositing rime fog"),
   (51, "Light drizzle"), (53, "Moderate drizzle"), (55, "Dense drizzle"),
   (56, "Light freezing drizzle"), (57, "Dense freezing drizzle"),
   (61, "Slight rain"), (63, "Moderate rain"), (65, "Heavy rain"),
   (66, "Light freezing rain"), (67, "Heavy freezing rain"),
   (71, "Slight snow fall"), (73, "Moderate snow fall"), (75, "Heavy snow fall"),
   (77, "Snow grains"),
   (80, "Slight rain showers"), (81, "Moderate rain showers"), (82, "Violent rain showers"),
   (85, "Slight snow showers"), (86, "Heavy snow showers"),
   (95, "Thunderstorm"), (96, "Thunderstorm with slight hail"),
   (99, "Thunderstorm with heavy hail")]

/-- `WMO_CODES.get(weather_code, "Unknown")`.  Python dict lookup hashes the
key: integers (and booleans, which are integers in Python) can match the
integer keys; strings and `None` are hashable but match no key; lists and
dicts are unhashable and raise `TypeError`. -/
def wmoDescription (code : Json) : Except Exc String :=
  match code with
  | .num n =>
    match WMO_CODES.find? (fun p => p.1 == n) with
    | some p => Except.ok p.2
    | none => Except.ok "Unknown"
  | .bool b =>
    match WMO_CODES.find? (fun p => p.1 == (if b then (1 : Int) else 0)) with
    | some p => Except.ok p.2
    | none => Except.ok "Unknown"
  | .null => Except.ok "Unknown"
  | .str _ => Except.ok "Unknown"
  | .arr _ => Except.error (Exc.other "TypeError: unhashable type")
  | .obj _ => Except.error (Exc.other "TypeError: unhashable type")

/-- The `WeatherData` dataclass.  Fields that Python leaves as raw decoded
JSON values are `Json`; `Option` models `None`-able fields. -/
structure WeatherData where
  temperature : Json
  temperature_unit : Json
  weather_code : Json
  weather_description : String
  wind_speed : Json
  wind_speed_unit : Json
  humidity : Option Json := none
  apparent_temperature : Option Json := none
  precipitation : Option Json := none
  is_day : Option Bool := none

/-- The body of `WeatherService.get_weather` that translates a fetched
response `data` into `WeatherData`.  A response without a `current` key is a
`WeatherServiceError("Invalid response from weather API")`; `current.get`/
`units.get` on non-dict values raise `AttributeError` (`Exc.other`). -/
def parseWeatherResponse (data : Dict) : Except Exc WeatherData :=
  match dictGet data "current" with
  | none => Except.error (Exc.weatherServiceError "Invalid response from weather API")
  | some currentJ =>
    match currentJ, pyDictGetD data "current_units" (Json.obj []) with
    | Json.obj current, Json.obj units =>
      match wmoDescription (pyDictGetD current "weather_code" (Json.num 0)) with
      | Except.error e => Except.error e
      | Except.ok weather_description =>
        Except.ok
          { temperature := pyDictGetD current "temperature_2m" (Json.num 0)
            temperature_unit := pyDictGetD units "temperature_2m" (Json.str "°C")
            weather_code := pyDictGetD current "weather_code" (Json.num 0)
            weather_description := weather_description
            wind_speed := pyDictGetD current "wind_speed_10m" (Json.num 0)
            wind_speed_unit := pyDictGetD units "wind_speed_10m" (Json.str "km/h")
            humidity := pyDictGetOpt current "relative_humidity_2m"
            apparent_temperature := pyDictGetOpt current "apparent_temperature"
            precipitation := pyDictGetOpt current "precipitation"
            is_day :=
              match pyDictGetOpt current "is_day" with
              | some v => some v.truthy
              | none => none }
    | _, _ => Except.error (Exc.other "AttributeError: value has no attribute get")

/-- The `Coordinates` dataclass from `services/geocoding_service.py`. -/
structure Coordinates where
  latitude : Json
  longitude : Json
  city_name : Json
  country : Option Json := none
  country_code : Option Json := none

/-! ## Circuit breaker (`resilience/circuit_breaker.py`) -/

/-- Breaker tunables taken from `Config` at breaker construction. -/
structure BreakerConfig where
  failMax : Nat
  resetTimeout : Nat

/-- Modelled from the spec: `pybreaker.CircuitBreaker` is a third-party
library whose source is not under `src/`; its state machine is taken from
spec §4.2: `closed → open` after `fail_max` consecutive failures,
`open → half_open` after `reset_timeout` seconds, `half_open → closed` on a
success, `half_open → open` on a failure. -/
inductive BState where
  | closed (failCount : Nat) : BState
  | opened (openedAt : Nat) : BState
  | halfOpen : BState
deriving DecidableEq, Repr

/-- Result of one `breaker.call(operation)`: the new breaker state, what the
call returned or raised, and whether the wrapped operation was invoked. -/
structure CallResult (α : Type) where
  state : BState
  result : Except Exc α
  invokedOp : Bool

/-- Modelled from the spec: the half-open probe of `pybreaker.CircuitBreaker`
(source not under `src/`).  The probing call is invoked; success closes the
breaker and resets the counter, failure re-opens it (raising the breaker's
own circuit-open error). -/
def halfOpenCall (now : Nat) (outcome : Except Exc α) : CallResult α :=
  match outcome with
  | Except.ok a => ⟨BState.closed 0, Except.ok a, true⟩
  | Except.error _ => ⟨BState.opened now, Except.error Exc.circuitBreakerError, true⟩

/-- Modelled from the spec: `breaker.call(operation)` of
`pybreaker.CircuitBreaker` (source not under `src/`), per spec §4.2.
`outcome` is what the wrapped operation would return or raise if invoked;
`now` is the call's timestamp in seconds. -/
def breakerCall (cfg : BreakerConfig) (now : Nat) (st : BState)
    (outcome : Except Exc α) : CallResult α :=
  match st with
  | BState.closed n =>
    match outcome with
    | Except.ok a => ⟨BState.closed 0, Except.ok a, true⟩
    | Except.error e =>
      if cfg.failMax ≤ n + 1 then ⟨BState.opened now, Except.error Exc.circuitBreakerError, true⟩
      else ⟨BState.closed (n + 1), Except.error e, true⟩
  | BState.opened t =>
    if now < t + cfg.resetTimeout then ⟨BState.opened t, Except.error Exc.circuitBreakerError, false⟩
    else halfOpenCall now outcome
  | BState.halfOpen => halfOpenCall now outcome

/-! ## Retry (`with_retry` in `resilience/circuit_breaker.py`) -/

/-- `retry_if_exception_type((httpx.TimeoutException, httpx.ConnectError,
httpx.HTTPStatusError))`: the exception classes `with_retry` retries on. -/
def retryEligible (e : Exc) : Bool :=
  match e with
  | Exc.httpxTimeout => true
  | Exc.httpxConnect => true
  | Exc.httpxStatus _ => true
  | _ => false

/-- State threaded through one logical client call: the shared breaker state,
the scripted outcomes of successive `_make_request` invocations (what the
next HTTP request would return or raise), the number of `_make_request`
invocations performed so far, and the current time in seconds. -/
structure FetchState where
  breaker : BState
  pending : List (Except Exc Dict)
  invoked : Nat
  now : Nat

/-- Modelled from the spec: the `tenacity`-backed retry loop produced by
`with_retry` (library source not under `src/`), per spec §4.1: run the
wrapped body; while the raised error is retry-eligible and fewer than
`max_attempts` attempts have run, retry; otherwise re-raise the last error
unchanged (`reraise=True`).  `fuel` is the number of attempts remaining. -/
def retryGo (body : FetchState → FetchState × Except Exc α) :
    Nat → FetchState → FetchState × Except Exc α
  | 0, st => body st
  | 1, st => body st
  | Nat.succ (Nat.succ n), st =>
    match body st with
    | (st', Except.ok a) => (st', Except.ok a)
    | (st', Except.error e) =>
      if retryEligible e then retryGo body (Nat.succ n) st' else (st', Except.error e)

/-- The call `with_retry()(func)`: `func` retried up to `maxAttempts` times. -/
def withRetryRun (maxAttempts : Nat) (body : FetchState → FetchState × Except Exc α)
    (st : FetchState) : FetchState × Except Exc α :=
  retryGo body maxAttempts st

/-! ## The `_fetch_*_data` bodies -/

/-- The exception translation of `WeatherService._fetch_weather_data`:
`pybreaker.CircuitBreakerError` becomes `CircuitBreakerOpen`, and the three
`httpx` error classes become `WeatherServiceError`, in the source's `except`
order (`TimeoutException`, then `HTTPStatusError`, then `RequestError`, which
covers `ConnectError`).  Any other exception propagates unchanged. -/
def weatherTranslate (e : Exc) : Exc :=
  match e with
  | Exc.circuitBreakerError => Exc.circuitBreakerOpen
  | Exc.httpxTimeout => Exc.weatherServiceError "Weather request timed out"
  | Exc.httpxStatus c => Exc.weatherServiceError ("Weather API error: " ++ toString c)
  | Exc.httpxConnect => Exc.weatherServiceError "Weather request failed"
  | Exc.httpxOtherRequest => Exc.weatherServiceError "Weather request failed"
  | e => e

/-- The exception translation of `GeocodingService._fetch_geocoding_data`,
structured exactly like `weatherTranslate`. -/
def geocodingTranslate (e : Exc) : Exc :=
  match e with
  | Exc.circuitBreakerError => Exc.circuitBreakerOpen
  | Exc.httpxTimeout => Exc.geocodingError "Geocoding request timed out"
  | Exc.httpxStatus c => Exc.geocodingError ("Geocoding API error: " ++ toString c)
  | Exc.httpxConnect => Exc.geocodingError "Geocoding request failed"
  | Exc.httpxOtherRequest => Exc.geocodingError "Geocoding request failed"
  | e => e

/-- The fetch state after one breaker call: record the new breaker state,
and consume the scripted outcome and count the `_make_request` invocation
exactly when the breaker invoked the wrapped operation. -/
def fetchAdvance (st : FetchState) (bst : BState) (inv : Bool) : FetchState :=
  if inv then
    { st with breaker := bst, pending := st.pending.tail, invoked := st.invoked + 1 }
  else { st with breaker := bst }

/-- One execution of a `_fetch_*_data` body: `breaker.call(_make_request)`
with the given exception translation applied to whatever the breaker call
raises. -/
def fetchOnce (cfg : BreakerConfig) (translate : Exc → Exc) (st : FetchState) :
    FetchState × Except Exc Dict :=
  match breakerCall cfg st.now st.breaker
      (st.pending.headD (Except.error (Exc.other "no scripted outcome"))) with
  | CallResult.mk bst (Except.ok d) inv => (fetchAdvance st bst inv, Except.ok d)
  | CallResult.mk bst (Except.error e) inv =>
    (fetchAdvance st bst inv, Except.error (translate e))

/-- `WeatherService._fetch_weather_data`: the fetch body under `with_retry()`. -/
def fetchWeatherData (cfg : BreakerConfig) (maxAttempts : Nat) (st : FetchState) :
    FetchState × Except Exc Dict :=
  withRetryRun maxAttempts (fetchOnce cfg weatherTranslate) st

/-- `GeocodingService._fetch_geocoding_data`: the fetch body under `with_retry()`. -/
def fetchGeocodingData (cfg : BreakerConfig) (maxAttempts : Nat) (st : FetchState) :
    FetchState × Except Exc Dict :=
  withRetryRun maxAttempts (fetchOnce cfg geocodingTranslate) st

/-- `WeatherService.get_weather`: fetch, translate a breaker-open condition
into `WeatherServiceError`, then parse the response. -/
def wsGetWeather (cfg : BreakerConfig) (maxAttempts : Nat) (st : FetchState) :
    FetchState × Except Exc WeatherData :=
  match fetchWeatherData cfg maxAttempts st with
  | (st', Except.error Exc.circuitBreakerOpen) =>
    (st', Except.error (Exc.weatherServiceError
      "Weather service temporarily unavailable (circuit breaker open)"))
  | (st', Except.error e) => (st', Except.error e)
  | (st', Except.ok data) => (st', parseWeatherResponse data)

/-- Python `len(v)` on a decoded JSON value: defined for strings, lists and
dicts, `TypeError` otherwise. -/
def pyLen (j : Json) : Except Exc Nat :=
  match j with
  | .str s => Except.ok s.length
  | .arr l => Except.ok l.length
  | .obj l => Except.ok l.length
  | _ => Except.error (Exc.other "TypeError: value has no len")

/-- Python `v[i]` for an integer index `i ≥ 0`: list and string indexing,
`KeyError` on dicts (no such integer key), `TypeError` otherwise. -/
def pyIndexNat (j : Json) (i : Nat) : Except Exc Json :=
  match j with
  | .arr l =>
    match l.get? i with
    | some v => Except.ok v
    | none => Except.error (Exc.other "IndexError: list index out of range")
  | .str s =>
    match s.data.get? i with
    | some c => Except.ok (Json.str (String.mk [c]))
    | none => Except.error (Exc.other "IndexError: string index out of range")
  | .obj _ => Except.error (Exc.other "KeyError: integer key")
  | _ => Except.error (Exc.other "TypeError: value is not subscriptable")

/-- Python `obj.get(k)` (one-argument form) on an arbitrary value: an absent
key or a JSON `null` value gives Python `None`; `AttributeError` when the
value is not a dict. -/
def pyGetAttrOpt (j : Json) (k : String) : Except Exc (Option Json) :=
  match j with
  | .obj fs => Except.ok (pyDictGetOpt fs k)
  | _ => Except.error (Exc.other "AttributeError: value has no attribute get")

/-- The result-list handling of `GeocodingService.city_to_coords` after a
successful fetch: missing or empty `results` is `CityNotFoundError`, and the
first result supplies the coordinate fields, falling back to the query
string for the display name. -/
def parseGeocodingResults (data : Dict) (city : String) : Except Exc Coordinates :=
  match dictGet data "results" with
  | none => Except.error (Exc.cityNotFound ("Could not find city: " ++ city))
  | some resultsJ => do
    let n ← pyLen resultsJ
    if n = 0 then
      Except.error (Exc.cityNotFound ("Could not find city: " ++ city))
    else do
      let result ← pyIndexNat resultsJ 0
      let lat ← pyIndexStr result "latitude"
      let lon ← pyIndexStr result "longitude"
      let nameV ← pyGetAttrD result "name" (Json.str city)
      let countryV ← pyGetAttrOpt result "country"
      let ccV ← pyGetAttrOpt result "country_code"
      Except.ok (Coordinates.mk lat lon nameV countryV ccV)

/-- `GeocodingService.city_to_coords`: validate the city name, fetch through
retry and breaker, translate a breaker-open condition into `GeocodingError`,
then read the first geocoding result. -/
def cityToCoords (cfg : BreakerConfig) (maxAttempts : Nat) (city_name : String)
    (st : FetchState) : FetchState × Except Exc Coordinates :=
  if city_name = "" ∨ pyStrip city_name = "" then
    (st, Except.error (Exc.cityNotFound "City name cannot be empty"))
  else
    let city := pyStrip city_name
    match fetchGeocodingData cfg maxAttempts st with
    | (st', Except.error Exc.circuitBreakerOpen) =>
      (st', Except.error (Exc.geocodingError
        "Geocoding service temporarily unavailable (circuit breaker open)"))
    | (st', Except.error e) => (st', Except.error e)
    | (st', Except.ok data) => (st', parseGeocodingResults data city)

/-! ## Cache store (`services/cache_service.py`)

Redis holds string values.  A stored string is modelled by its `json.loads`
classification: either it decodes to a JSON value or it is corrupt
(`json.JSONDecodeError`).  Backing-store errors (`redis.RedisError`) are an
explicit `redisFails` input to each operation, mirroring the granularity of
the source's `try`/`except redis.RedisError` blocks. -/

/-- Modelled from the spec: a raw Redis string value classified by what the
`json` standard library (not under `src/`) decodes it to. -/
inductive StoredVal where
  | json (j : Json) : StoredVal
  | corrupt : StoredVal

/-- One Redis entry: the stored value and its remaining TTL (`none` = the
key has no expiry). -/
structure CacheEntry where
  val : StoredVal
  ttl : Option Nat

/-- The Redis keyspace. -/
abbrev Store := List (String × CacheEntry)

def storeLookup (st : Store) (k : String) : Option CacheEntry :=
  (st.find? (fun p => p.1 == k)).map (fun p => p.2)

def storeInsert (st : Store) (k : String) (e : CacheEntry) : Store :=
  (k, e) :: st.filter (fun p => p.1 != k)

def storeRemove (st : Store) (k : String) : Store :=
  st.filter (fun p => p.1 != k)

/-- A Python value cacheable in a dict field: either JSON-serializable (with
its JSON image) or a value `json.dumps` rejects with `TypeError`/`ValueError`. -/
inductive PyVal where
  | json (j : Json) : PyVal
  | unserializable : PyVal

/-- Modelled from the spec: `json.dumps` (standard library, not under `src/`)
on a `dict[str, Any]`, returning its JSON image or failing if any field is
unserializable. -/
def serializeDict (value : List (String × PyVal)) : Option Dict :=
  value.foldr
    (fun p acc =>
      match p.2, acc with
      | PyVal.json j, some fs => some ((p.1, j) :: fs)
      | _, _ => none)
    (some [])

/-- `CacheService.get`: namespace the key, read Redis, decode.  A Redis
error, an absent key, corrupt data, or data decoding to JSON `null` (Python
`None`) all yield `none`; the operation never raises. -/
def cacheGet (st : Store) (key : String) (redisFails : Bool) : Option Json :=
  if redisFails then none
  else
    match storeLookup st (makeKey key) with
    | none => none
    | some e =>
      match e.val with
      | StoredVal.corrupt => none
      | StoredVal.json Json.null => none
      | StoredVal.json j => some j

/-- `CacheService.set`: serialize, then `setex` with the explicit TTL or the
configured default.  Returns the updated store and the success flag; a
serialization error or Redis error yields `false` and leaves the store
unchanged. -/
def cacheSet (st : Store) (key : String) (value : List (String × PyVal))
    (ttl : Option Nat) (defaultTtl : Nat) (redisFails : Bool) : Store × Bool :=
  match serializeDict value with
  | none => (st, false)
  | some fs =>
    if redisFails then (st, false)
    else
      (storeInsert st (makeKey key) ⟨StoredVal.json (Json.obj fs), some (ttl.getD defaultTtl)⟩,
       true)

/-- `CacheService.delete`. -/
def cacheDelete (st : Store) (key : String) (redisFails : Bool) : Store × Bool :=
  if redisFails then (st, false) else (storeRemove st (makeKey key), true)

/-- `CacheService.get_ttl`: Redis reports `-2` for an absent key and `-1`
for a key without expiry; both negatives (and any Redis error) become
`none`. -/
def cacheGetTtl (st : Store) (key : String) (redisFails : Bool) : Option Nat :=
  if redisFails then none
  else
    match storeLookup st (makeKey key) with
    | none => none
    | some e =>
      match e.ttl with
      | none => none
      | some t => some t

/-! ## The `GET /weather` route (`routes/weather.py`) -/

/-- The JSON error body the route builds for each failure. -/
def errorBody (code msg request_id : String) : Json :=
  Json.obj [("error", Json.obj
    [("code", Json.str code), ("message", Json.str msg), ("request_id", Json.str request_id)])]

/-- `weather_data`: the dict the route builds from a `WeatherData` value. -/
def buildWeatherData (w : WeatherData) : Json :=
  Json.obj
    [("temperature", w.temperature),
     ("temperature_unit", w.temperature_unit),
     ("apparent_temperature", optJson w.apparent_temperature),
     ("humidity", optJson w.humidity),
     ("weather_code", w.weather_code),
     ("weather_description", Json.str w.weather_description),
     ("wind_speed", w.wind_speed),
     ("wind_speed_unit", w.wind_speed_unit),
     ("precipitation", optJson w.precipitation),
     ("is_day", match w.is_day with
       | some b => Json.bool b
       | none => Json.null)]

/-- `_build_weather_response`: the standardized success body;
`cache_expires_in` is present only when a TTL is known. -/
def buildWeatherResponse (city country lat lon weather_data : Json) (cached : Bool)
    (cache_ttl : Option Nat) (request_id : String) : Json :=
  let base :=
    [("city", city), ("country", country),
     ("coordinates", Json.obj [("latitude", lat), ("longitude", lon)]),
     ("current", weather_data), ("cached", Json.bool cached),
     ("request_id", Json.str request_id)]
  match cache_ttl with
  | some t => Json.obj (base ++ [("cache_expires_in", Json.num (Int.ofNat t))])
  | none => Json.obj base

/-- Outcomes of the route's collaborators for one request: what
`cache_service.get(cache_key)` returns or raises, what
`cache_service.get_ttl(cache_key)` returns (total per its own handlers),
and what the geocoding and weather service calls return or raise. -/
structure PipelineEnv where
  cacheGetOutcome : Except Exc (Option Json)
  cacheTtl : Option Nat
  geocode : Except Exc Coordinates
  weather : Except Exc WeatherData

/-- The `contextlib.suppress(Exception)` wrapper around the cache lookup:
any raised error leaves `cached_data` as `None`. -/
def suppressedCache (o : Except Exc (Option Json)) : Option Json :=
  match o with
  | Except.ok v => v
  | Except.error _ => none

/-- Python exception propagation made explicit: evaluate `x`; a raised
exception aborts the surrounding block, a value feeds the continuation. -/
def exBind (x : Except Exc α) (f : α → Except Exc β) : Except Exc β :=
  match x with
  | Except.error e => Except.error e
  | Except.ok a => f a

/-- The `try` block of `get_weather` after validation: cache lookup (errors
suppressed and treated as a miss), the cache-hit path that indexes the
cached record without validating its shape, and the miss path through
geocoding and weather fetch.  The best-effort cache write is inside
`contextlib.suppress` and cannot affect the response. -/
def routeBody (env : PipelineEnv) (city request_id : String) : Except Exc (Json × Nat) :=
  match suppressedCache env.cacheGetOutcome with
  | some cached_data =>
    exBind (pyGetAttrD cached_data "city" (Json.str city)) (fun cityV =>
    exBind (pyGetAttrD cached_data "country" Json.null) (fun countryV =>
    exBind (pyIndexStr cached_data "coordinates") (fun coordsJ =>
    exBind (pyIndexStr coordsJ "latitude") (fun lat =>
    exBind (pyIndexStr cached_data "coordinates") (fun coordsJ2 =>
    exBind (pyIndexStr coordsJ2 "longitude") (fun lon =>
    exBind (pyIndexStr cached_data "current") (fun cur =>
      Except.ok (buildWeatherResponse cityV countryV lat lon cur true env.cacheTtl request_id,
        200))))))))
  | none =>
    exBind env.geocode (fun coords =>
    exBind env.weather (fun w =>
      Except.ok (buildWeatherResponse coords.city_name (optJson coords.country)
        coords.latitude coords.longitude (buildWeatherData w) false none request_id, 200)))

/-- `get_weather`: parameter validation, then the body, with the route's
`except` chain mapping each exception class to its error code and HTTP
status.  `CityNotFoundError` is matched before its superclass
`GeocodingError`, as in the source. -/
def getWeatherRoute (env : PipelineEnv) (cityParam request_id : String) : Json × Nat :=
  if pyStrip cityParam = "" then
    (errorBody "MISSING_PARAMETER" "Missing required parameter: city" request_id, 400)
  else if 100 < (pyStrip cityParam).length then
    (errorBody "INVALID_PARAMETER" "City name too long (max 100 characters)" request_id, 400)
  else
    match routeBody env (pyStrip cityParam) request_id with
    | Except.ok r => r
    | Except.error (Exc.cityNotFound m) => (errorBody "CITY_NOT_FOUND" m request_id, 404)
    | Except.error (Exc.geocodingError m) =>
      (errorBody "GEOCODING_ERROR" ("Failed to geocode city: " ++ m) request_id, 502)
    | Except.error (Exc.weatherServiceError m) =>
      (errorBody "WEATHER_SERVICE_ERROR" ("Failed to fetch weather data: " ++ m) request_id, 502)
    | Except.error _ =>
      (errorBody "INTERNAL_ERROR" "An unexpected error occurred" request_id, 500)

/-- The route composed with the cache store: `cache_key = city.lower()` on
the trimmed parameter, looked up through `CacheService.get` on a functioning
store. -/
def getWeatherPipeline (st : Store) (ttl : Option Nat) (geocode : Except Exc Coordinates)
    (weather : Except Exc WeatherData) (cityParam request_id : String) : Json × Nat :=
  getWeatherRoute
    ⟨Except.ok (cacheGet st (pyLower (pyStrip cityParam)) false), ttl, geocode, weather⟩
    cityParam request_id

/-! ## Health check (`routes/health.py`) -/

/-- `_check_redis_health`: the probe resolves to `connected` or
`disconnected`, catching every error. -/
def checkRedisHealth (probe : Except Exc Bool) : String :=
  match probe with
  | Except.ok true => "connected"
  | Except.ok false => "disconnected"
  | Except.error _ => "disconnected"

/-- `_check_open_meteo_health`: the probe resolves to `available` or
`unavailable`, catching every error. -/
def checkOpenMeteoHealth (probe : Except Exc Bool) : String :=
  match probe with
  | Except.ok true => "available"
  | Except.ok false => "unavailable"
  | Except.error _ => "unavailable"

/-- The "good" dependency statuses of `health_check`. -/
def healthGoodSet : List String := ["connected", "available", "not_configured"]

/-- `health_check`: probe both dependencies, fold into `healthy`/`degraded`,
always HTTP 200. -/
def healthCheck (redisProbe openMeteoProbe : Except Exc Bool) (version : String)
    (uptime : Int) : Json × Nat :=
  let dependencies :=
    [("redis", checkRedisHealth redisProbe), ("open_meteo", checkOpenMeteoHealth openMeteoProbe)]
  let all_healthy := dependencies.all (fun p => healthGoodSet.contains p.2)
  let status := if all_healthy then "healthy" else "degraded"
  (Json.obj
    [("status", Json.str status), ("version", Json.str version),
     ("dependencies", Json.obj (dependencies.map (fun p => (p.1, Json.str p.2)))),
     ("uptime_seconds", Json.num uptime)], 200)

/-- Default resilience tunables from `config.py`: `CIRCUIT_BREAKER_FAIL_MAX=5`,
`CIRCUIT_BREAKER_RESET_TIMEOUT=60`, `RETRY_MAX_ATTEMPTS=3`. -/
def defaultBreakerConfig : BreakerConfig := ⟨5, 60⟩

def defaultRetryMaxAttempts : Nat := 3

/-! ## Supporting lemmas -/

theorem toNat_ofNat_valid (n : Nat) (h : n.isValidChar) : (Char.ofNat n).toNat = n := by
  simp [Char.ofNat, dif_pos h, Char.ofNatAux, Char.toNat, UInt32.toNat]

/-- Basic-latin lowercasing does not create or destroy whitespace. -/
theorem isWhitespace_toLower (c : Char) :
    (Char.toLower c).isWhitespace = c.isWhitespace := by
  unfold Char.toLower
  by_cases h : c.toNat >= 65 ∧ c.toNat <= 90
  · rw [if_pos h]
    have hv : (c.toNat + 32).isValidChar := Or.inl (by omega)
    have ht : (Char.ofNat (c.toNat + 32)).toNat = c.toNat + 32 := toNat_ofNat_valid _ hv
    have hone : ∀ d : Char, d.toNat < 65 →
        (decide (Char.ofNat (c.toNat + 32) = d) = false ∧ decide (c = d) = false) := by
      intro d hd
      constructor
      · apply decide_eq_false
        intro he
        have h2 := congrArg Char.toNat he
        rw [ht] at h2
        omega
      · apply decide_eq_false
        intro he
        have h2 := congrArg Char.toNat he
        omega
    simp only [Char.isWhitespace]
    rw [(hone ' ' (by decide)).1, (hone ' ' (by decide)).2,
        (hone '\t' (by decide)).1, (hone '\t' (by decide)).2,
        (hone '\x0d' (by decide)).1, (hone '\x0d' (by decide)).2,
        (hone '\n' (by decide)).1, (hone '\n' (by decide)).2]
  · rw [if_neg h]

theorem dropWhile_isWhitespace_map_toLower (l : List Char) :
    (l.map Char.toLower).dropWhile Char.isWhitespace
      = (l.dropWhile Char.isWhitespace).map Char.toLower := by
  induction l with
  | nil => rfl
  | cons c l ih =>
    simp only [List.map_cons, List.dropWhile_cons, isWhitespace_toLower]
    by_cases h : c.isWhitespace
    · simp [h, ih]
    · simp [h]

theorem pyStripList_map_toLower (l : List Char) :
    pyStripList (l.map Char.toLower) = (pyStripList l).map Char.toLower := by
  unfold pyStripList
  rw [dropWhile_isWhitespace_map_toLower, ← List.map_reverse,
      dropWhile_isWhitespace_map_toLower, ← List.map_reverse]

/-- Stripping and lowercasing commute, so `key.lower().strip()` in
`_make_key` equals `key.strip().lower()`. -/
theorem pyStrip_pyLower (s : String) : pyStrip (pyLower s) = pyLower (pyStrip s) :=
  congrArg String.mk (pyStripList_map_toLower s.data)

theorem makeKey_congr (a b : String) (h : pyLower (pyStrip a) = pyLower (pyStrip b)) :
    makeKey a = makeKey b := by
  unfold makeKey
  rw [pyStrip_pyLower, pyStrip_pyLower, h]

/-! ## Claims -/

/-- C6: for every city name, `_make_key` derives
`"weather:" ++ lowercase(trim(city))`; all casing and whitespace variants of
a city therefore hit the same key in `get`, `set`, `delete` and `get_ttl`,
as the concrete variants `"Berlin"`, `"BERLIN"`, `" berlin "` illustrate. -/
theorem cache_key_normalization :
    (∀ city : String, makeKey city = "weather:" ++ pyLower (pyStrip city))
    ∧ (∀ a b : String, pyLower (pyStrip a) = pyLower (pyStrip b) →
        ∀ (st : Store) (f : Bool) (v : List (String × PyVal)) (t : Option Nat) (d : Nat),
          cacheGet st a f = cacheGet st b f
          ∧ cacheSet st a v t d f = cacheSet st b v t d f
          ∧ cacheDelete st a f = cacheDelete st b f
          ∧ cacheGetTtl st a f = cacheGetTtl st b f)
    ∧ makeKey "Berlin" = "weather:berlin"
    ∧ makeKey "BERLIN" = "weather:berlin"
    ∧ makeKey " berlin " = "weather:berlin" := by
  refine ⟨?_, ?_, by decide, by decide, by decide⟩
  · intro city
    unfold makeKey
    rw [pyStrip_pyLower]
  · intro a b h st f v t d
    have hk := makeKey_congr a b h
    refine ⟨?_, ?_, ?_, ?_⟩
    · unfold cacheGet; rw [hk]
    · unfold cacheSet; rw [hk]
    · unfold cacheDelete; rw [hk]
    · unfold cacheGetTtl; rw [hk]

/-- Witness for C6 at concrete inputs: `"Berlin"` and `" BERLIN "` are
casing/whitespace variants, so all four cache operations agree on them. -/
theorem cache_key_normalization_witness :
    cacheGet [] "Berlin" false = cacheGet [] " BERLIN " false
    ∧ cacheGetTtl [] "Berlin" false = cacheGetTtl [] " BERLIN " false := by
  have h := cache_key_normalization.2.1 "Berlin" " BERLIN " (by decide) [] false [] none 0
  exact ⟨h.1, h.2.2.2⟩

/-- C7: on a functioning store, `set(k, v)` followed immediately by `get(k)`
returns the stored value: the serialized dict deserializes to the very JSON
object that was written (no TTL elapses between the two operations in this
model, matching the claim's proviso). -/
theorem cache_set_get_roundtrip (st : Store) (k : String) (v : List (String × PyVal))
    (fs : Dict) (ttl : Option Nat) (d : Nat) (h : serializeDict v = some fs) :
    cacheGet (cacheSet st k v ttl d false).1 k false = some (Json.obj fs) := by
  unfold cacheSet
  rw [h]
  unfold cacheGet storeLookup storeInsert
  simp [List.find?]

/-- Witness for C7: caching the record `{"a": 1}` under `"Berlin"` and
reading it back returns `{"a": 1}`. -/
theorem cache_set_get_roundtrip_witness :
    cacheGet (cacheSet [] "Berlin" [("a", PyVal.json (Json.num 1))] none 300 false).1
      "Berlin" false = some (Json.obj [("a", Json.num 1)]) :=
  cache_set_get_roundtrip [] "Berlin" [("a", PyVal.json (Json.num 1))]
    [("a", Json.num 1)] none 300 rfl

/-- C8: every cache-store operation is total and best-effort: a Redis error
makes `get` a miss, `set`/`delete` return `false` (leaving the store
untouched) and `get_ttl` return `none`; a serialization failure makes `set`
return `false`; corrupt stored data reads as a miss; and `get_ttl` returns
`none` both for an absent key and for a key without expiry.  Each operation
is a total function: no input raises. -/
theorem cache_best_effort (st : Store) (k : String) (v : List (String × PyVal))
    (t : Option Nat) (d : Nat) :
    cacheGet st k true = none
    ∧ cacheSet st k v t d true = (st, false)
    ∧ (serializeDict v = none → cacheSet st k v t d false = (st, false))
    ∧ cacheDelete st k true = (st, false)
    ∧ cacheGetTtl st k true = none
    ∧ (∀ e, storeLookup st (makeKey k) = some e → e.val = StoredVal.corrupt →
        cacheGet st k false = none)
    ∧ (storeLookup st (makeKey k) = none →
        cacheGet st k false = none ∧ cacheGetTtl st k false = none)
    ∧ (∀ e, storeLookup st (makeKey k) = some e → e.ttl = none →
        cacheGetTtl st k false = none) := by
  refine ⟨rfl, ?_, ?_, rfl, rfl, ?_, ?_, ?_⟩
  · unfold cacheSet
    cases serializeDict v <;> rfl
  · intro h
    unfold cacheSet
    rw [h]
  · intro e he hc
    unfold cacheGet
    rw [if_neg (by simp), he]
    simp [hc]
  · intro h
    constructor
    · unfold cacheGet
      rw [if_neg (by simp), h]
    · unfold cacheGetTtl
      rw [if_neg (by simp), h]
  · intro e he ht
    unfold cacheGetTtl
    rw [if_neg (by simp), he]
    simp [ht]

/-- Witness for C8 at concrete inputs: a failing backing store yields a miss
and a `false` write; a corrupt entry yields a miss; an entry without expiry
yields no TTL. -/
theorem cache_best_effort_witness :
    cacheGet [("weather:berlin", ⟨StoredVal.corrupt, none⟩)] "Berlin" true = none
    ∧ cacheSet [("weather:berlin", ⟨StoredVal.corrupt, none⟩)] "Berlin" [] none 300 true
        = ([("weather:berlin", ⟨StoredVal.corrupt, none⟩)], false)
    ∧ cacheGet [("weather:berlin", ⟨StoredVal.corrupt, none⟩)] "Berlin" false = none
    ∧ cacheGetTtl [("weather:berlin", ⟨StoredVal.corrupt, none⟩)] "Berlin" false = none := by
  have h := cache_best_effort [("weather:berlin", ⟨StoredVal.corrupt, none⟩)] "Berlin" [] none 300
  exact ⟨h.1, h.2.1, h.2.2.2.2.2.1 ⟨StoredVal.corrupt, none⟩ rfl rfl,
    h.2.2.2.2.2.2.2 ⟨StoredVal.corrupt, none⟩ rfl rfl⟩

/-- C9: the health check always returns HTTP 200; the reported status is
`"healthy"` exactly when the Redis probe resolves to `"connected"` and the
Open-Meteo probe resolves to `"available"` (equivalently, when both probes
report success); each probe catches all of its own errors and resolves to
its own status string, and each dependency entry in the response is a
function of its own probe alone, so one probe's failure cannot affect the
other or make the endpoint raise. -/
theorem health_aggregation (r o : Except Exc Bool) (version : String) (uptime : Int) :
    (healthCheck r o version uptime).2 = 200
    ∧ (pyIndexStr (healthCheck r o version uptime).1 "status" = Except.ok (Json.str "healthy")
        ↔ (checkRedisHealth r = "connected" ∧ checkOpenMeteoHealth o = "available"))
    ∧ (checkRedisHealth r = "connected" ↔ r = Except.ok true)
    ∧ (checkOpenMeteoHealth o = "available" ↔ o = Except.ok true)
    ∧ (∀ e : Exc, checkRedisHealth (Except.error e) = "disconnected"
        ∧ checkOpenMeteoHealth (Except.error e) = "unavailable")
    ∧ pyIndexStr (healthCheck r o version uptime).1 "dependencies"
        = Except.ok (Json.obj [("redis", Json.str (checkRedisHealth r)),
            ("open_meteo", Json.str (checkOpenMeteoHealth o))]) := by
  refine ⟨rfl, ?_, ?_, ?_, fun e => ⟨rfl, rfl⟩, rfl⟩
  · rcases r with e | b <;> rcases o with e2 | b2 <;> (try cases b) <;> (try cases b2) <;>
      simp [healthCheck, checkRedisHealth, checkOpenMeteoHealth, healthGoodSet,
        pyIndexStr, dictGet, List.find?]
  · rcases r with e | b
    · simp [checkRedisHealth]
    · cases b <;> simp [checkRedisHealth]
  · rcases o with e | b
    · simp [checkOpenMeteoHealth]
    · cases b <;> simp [checkOpenMeteoHealth]

/-- Witness for C9: with Redis unreachable and Open-Meteo reachable the
endpoint still returns 200 and the status is not `"healthy"`. -/
theorem health_aggregation_witness :
    (healthCheck (Except.error (Exc.other "down")) (Except.ok true) "1.0" 0).2 = 200
    ∧ ¬ (pyIndexStr (healthCheck (Except.error (Exc.other "down")) (Except.ok true) "1.0" 0).1
          "status" = Except.ok (Json.str "healthy")) := by
  have h := health_aggregation (Except.error (Exc.other "down")) (Except.ok true) "1.0" 0
  refine ⟨h.1, fun hs => ?_⟩
  have h2 := (h.2.1.mp hs).1
  have h3 := (h.2.2.2.2.1 (Exc.other "down")).1
  rw [h3] at h2
  exact absurd h2 (by decide)

/-- In a key-unique association list, `find?` on a key returns the member
pair with that key. -/
theorem find?_key_unique (l : List (Int × String)) (hnd : (l.map Prod.fst).Nodup)
    (n : Int) (s : String) (hm : (n, s) ∈ l) :
    l.find? (fun p => p.1 == n) = some (n, s) := by
  induction l with
  | nil => cases hm
  | cons a l ih =>
    rcases List.mem_cons.mp hm with h | h
    · subst h
      simp [List.find?]
    · have hne : a.1 ≠ n := by
        intro he
        have : n ∈ l.map Prod.fst := List.mem_map.mpr ⟨(n, s), h, rfl⟩
        rw [List.map_cons, List.nodup_cons] at hnd
        exact hnd.1 (he ▸ this)
      rw [List.find?]
      simp only [beq_eq_false_iff_ne.mpr hne]
      exact ih (by rw [List.map_cons, List.nodup_cons] at hnd; exact hnd.2) h

theorem wmo_keys_nodup : (WMO_CODES.map Prod.fst).Nodup := by decide

/-- The `WeatherData` record `get_weather` builds from a well-formed
`current`/`current_units` pair once the description is known. -/
def parsedRecord (current units : Dict) (desc : String) : WeatherData :=
  { temperature := pyDictGetD current "temperature_2m" (Json.num 0)
    temperature_unit := pyDictGetD units "temperature_2m" (Json.str "°C")
    weather_code := pyDictGetD current "weather_code" (Json.num 0)
    weather_description := desc
    wind_speed := pyDictGetD current "wind_speed_10m" (Json.num 0)
    wind_speed_unit := pyDictGetD units "wind_speed_10m" (Json.str "km/h")
    humidity := pyDictGetOpt current "relative_humidity_2m"
    apparent_temperature := pyDictGetOpt current "apparent_temperature"
    precipitation := pyDictGetOpt current "precipitation"
    is_day := match pyDictGetOpt current "is_day" with
      | some v => some v.truthy
      | none => none }

theorem parse_eq (data current units : Dict)
    (hc : dictGet data "current" = some (Json.obj current))
    (hu : pyDictGetD data "current_units" (Json.obj []) = Json.obj units) :
    parseWeatherResponse data =
      match wmoDescription (pyDictGetD current "weather_code" (Json.num 0)) with
      | Except.error e => Except.error e
      | Except.ok desc => Except.ok (parsedRecord current units desc) := by
  unfold parseWeatherResponse
  rw [hc, hu]
  rfl

/-- C5: the Weather Client's translation of a response with a `current`
object: the description is the WMO table entry for the weather code and
`"Unknown"` for every code outside the table; a missing temperature, wind
speed or weather code defaults to `0`; a missing `is_day` stays unset
(`none`, not `false`) while a present one is converted through Python
truthiness to a boolean; and a response without a `current` object is a
`WeatherServiceError` that the retry policy never retries. -/
theorem weather_translation :
    (∀ data : Dict, dictGet data "current" = none →
      parseWeatherResponse data
          = Except.error (Exc.weatherServiceError "Invalid response from weather API")
        ∧ retryEligible (Exc.weatherServiceError "Invalid response from weather API") = false)
    ∧ (∀ data current units : Dict,
        dictGet data "current" = some (Json.obj current) →
        pyDictGetD data "current_units" (Json.obj []) = Json.obj units →
        (∀ n s, dictGet current "weather_code" = some (Json.num n) → (n, s) ∈ WMO_CODES →
          ∃ w, parseWeatherResponse data = Except.ok w
            ∧ w.weather_description = s ∧ w.weather_code = Json.num n)
        ∧ (∀ n, dictGet current "weather_code" = some (Json.num n) →
            n ∉ WMO_CODES.map Prod.fst →
          ∃ w, parseWeatherResponse data = Except.ok w ∧ w.weather_description = "Unknown")
        ∧ (∀ w, parseWeatherResponse data = Except.ok w →
            (dictGet current "temperature_2m" = none → w.temperature = Json.num 0)
            ∧ (dictGet current "wind_speed_10m" = none → w.wind_speed = Json.num 0)
            ∧ (dictGet current "weather_code" = none → w.weather_code = Json.num 0)
            ∧ (dictGet current "is_day" = none → w.is_day = none)
            ∧ (∀ v, dictGet current "is_day" = some v → v ≠ Json.null →
                w.is_day = some v.truthy))) := by
  constructor
  · intro data h
    unfold parseWeatherResponse
    rw [h]
    exact ⟨rfl, rfl⟩
  · intro data current units hc hu
    rw [parse_eq data current units hc hu]
    refine ⟨?_, ?_, ?_⟩
    · intro n s hwc hmem
      have hg : pyDictGetD current "weather_code" (Json.num 0) = Json.num n := by
        unfold pyDictGetD
        rw [hwc]
      have hdesc : wmoDescription (Json.num n) = Except.ok s := by
        show (match WMO_CODES.find? (fun p => p.1 == n) with
              | some p => Except.ok p.2
              | none => Except.ok "Unknown") = Except.ok s
        rw [find?_key_unique WMO_CODES wmo_keys_nodup n s hmem]
      rw [hg, hdesc]
      exact ⟨parsedRecord current units s, rfl, rfl, by unfold parsedRecord; exact hg⟩
    · intro n hwc hnotin
      have hg : pyDictGetD current "weather_code" (Json.num 0) = Json.num n := by
        unfold pyDictGetD
        rw [hwc]
      have hfind : WMO_CODES.find? (fun p => p.1 == n) = none := by
        apply List.find?_eq_none.mpr
        intro x hx
        intro he
        rw [beq_iff_eq] at he
        exact hnotin (List.mem_map.mpr ⟨x, hx, he⟩)
      have hdesc : wmoDescription (Json.num n) = Except.ok "Unknown" := by
        show (match WMO_CODES.find? (fun p => p.1 == n) with
              | some p => Except.ok p.2
              | none => Except.ok "Unknown") = Except.ok "Unknown"
        rw [hfind]
      rw [hg, hdesc]
      exact ⟨parsedRecord current units "Unknown", rfl, rfl⟩
    · intro w hw
      rcases hd : wmoDescription (pyDictGetD current "weather_code" (Json.num 0)) with e | desc
      · rw [hd] at hw
        cases hw
      · rw [hd] at hw
        injection hw with hw
        refine ⟨?_, ?_, ?_, ?_, ?_⟩
        · intro hnone
          rw [← hw]
          unfold parsedRecord pyDictGetD
          rw [hnone]
        · intro hnone
          rw [← hw]
          unfold parsedRecord pyDictGetD
          rw [hnone]
        · intro hnone
          rw [← hw]
          unfold parsedRecord pyDictGetD
          rw [hnone]
        · intro hnone
          rw [← hw]
          unfold parsedRecord pyDictGetOpt
          rw [hnone]
        · intro v hv hvn
          rw [← hw]
          have hsome : pyDictGetOpt current "is_day" = some v := by
            unfold pyDictGetOpt
            rw [hv]
            cases v
            case null => exact absurd rfl hvn
            all_goals rfl
          unfold parsedRecord
          rw [hsome]

/-- Witness for C5: weather code 3 gives `"Overcast"`, code 100 gives
`"Unknown"`, and a body without `current` is the invalid-response error. -/
theorem weather_translation_witness :
    (∃ w, parseWeatherResponse
        [("current", Json.obj [("weather_code", Json.num 3), ("is_day", Json.num 1)])]
          = Except.ok w ∧ w.weather_description = "Overcast" ∧ w.weather_code = Json.num 3)
    ∧ (∃ w, parseWeatherResponse [("current", Json.obj [("weather_code", Json.num 100)])]
          = Except.ok w ∧ w.weather_description = "Unknown")
    ∧ parseWeatherResponse [("city", Json.str "x")]
        = Except.error (Exc.weatherServiceError "Invalid response from weather API") := by
  refine ⟨?_, ?_, ?_⟩
  · exact (weather_translation.2
      [("current", Json.obj [("weather_code", Json.num 3), ("is_day", Json.num 1)])]
      [("weather_code", Json.num 3), ("is_day", Json.num 1)] [] rfl rfl).1
      3 "Overcast" rfl (by decide)
  · exact (weather_translation.2 [("current", Json.obj [("weather_code", Json.num 100)])]
      [("weather_code", Json.num 100)] [] rfl rfl).2.1 100 rfl (by decide)
  · exact (weather_translation.1 [("city", Json.str "x")] rfl).1


/-- Inversion for `exBind`: a successful block means every step succeeded. -/
theorem exBind_ok_inv {α β : Type} {x : Except Exc α} {f : α → Except Exc β} {r : β}
    (h : exBind x f = Except.ok r) : ∃ a, x = Except.ok a ∧ f a = Except.ok r := by
  cases x with
  | error e => simp [exBind] at h
  | ok a => exact ⟨a, rfl, h⟩

/-- Any successful route body carries HTTP status 200. -/
theorem routeBody_ok_status (env : PipelineEnv) (city rid : String) (r : Json × Nat)
    (h : routeBody env city rid = Except.ok r) : r.2 = 200 := by
  unfold routeBody at h
  rcases hc : suppressedCache env.cacheGetOutcome with _ | cd <;> rw [hc] at h
  · obtain ⟨a1, h1, h⟩ := exBind_ok_inv h
    obtain ⟨a2, h2, h⟩ := exBind_ok_inv h
    injection h with h
    rw [← h]
  · obtain ⟨a1, h1, h⟩ := exBind_ok_inv h
    obtain ⟨a2, h2, h⟩ := exBind_ok_inv h
    obtain ⟨a3, h3, h⟩ := exBind_ok_inv h
    obtain ⟨a4, h4, h⟩ := exBind_ok_inv h
    obtain ⟨a5, h5, h⟩ := exBind_ok_inv h
    obtain ⟨a6, h6, h⟩ := exBind_ok_inv h
    obtain ⟨a7, h7, h⟩ := exBind_ok_inv h
    injection h with h
    rw [← h]

/-- C4: the `GET /weather` pipeline maps every outcome to its specified
status and code: blank city gives 400 `MISSING_PARAMETER`; an over-100-char
trimmed city gives 400 `INVALID_PARAMETER`; on a cache miss a `CityNotFound`
from geocoding gives 404 `CITY_NOT_FOUND`, any other `GeocodingError` gives
502 `GEOCODING_ERROR`, and a `WeatherServiceError` gives 502
`WEATHER_SERVICE_ERROR`; every remaining error is caught and mapped to 500
`INTERNAL_ERROR`; and the handler is total, always answering with one of the
five statuses. -/
theorem route_status_mapping :
    (∀ (env : PipelineEnv) (c rid : String), pyStrip c = "" →
      getWeatherRoute env c rid
        = (errorBody "MISSING_PARAMETER" "Missing required parameter: city" rid, 400))
    ∧ (∀ (env : PipelineEnv) (c rid : String), pyStrip c ≠ "" → 100 < (pyStrip c).length →
      getWeatherRoute env c rid
        = (errorBody "INVALID_PARAMETER" "City name too long (max 100 characters)" rid, 400))
    ∧ (∀ (env : PipelineEnv) (c rid m : String), pyStrip c ≠ "" → (pyStrip c).length ≤ 100 →
        suppressedCache env.cacheGetOutcome = none →
        env.geocode = Except.error (Exc.cityNotFound m) →
      getWeatherRoute env c rid = (errorBody "CITY_NOT_FOUND" m rid, 404))
    ∧ (∀ (env : PipelineEnv) (c rid m : String), pyStrip c ≠ "" → (pyStrip c).length ≤ 100 →
        suppressedCache env.cacheGetOutcome = none →
        env.geocode = Except.error (Exc.geocodingError m) →
      getWeatherRoute env c rid
        = (errorBody "GEOCODING_ERROR" ("Failed to geocode city: " ++ m) rid, 502))
    ∧ (∀ (env : PipelineEnv) (c rid m : String) (coords : Coordinates),
        pyStrip c ≠ "" → (pyStrip c).length ≤ 100 →
        suppressedCache env.cacheGetOutcome = none →
        env.geocode = Except.ok coords →
        env.weather = Except.error (Exc.weatherServiceError m) →
      getWeatherRoute env c rid
        = (errorBody "WEATHER_SERVICE_ERROR" ("Failed to fetch weather data: " ++ m) rid, 502))
    ∧ (∀ (env : PipelineEnv) (c rid : String) (e : Exc),
        pyStrip c ≠ "" → (pyStrip c).length ≤ 100 →
        routeBody env (pyStrip c) rid = Except.error e →
        (∀ m, e ≠ Exc.cityNotFound m) → (∀ m, e ≠ Exc.geocodingError m) →
        (∀ m, e ≠ Exc.weatherServiceError m) →
      getWeatherRoute env c rid = (errorBody "INTERNAL_ERROR" "An unexpected error occurred" rid, 500))
    ∧ (∀ (env : PipelineEnv) (c rid : String),
        (getWeatherRoute env c rid).2 = 200 ∨ (getWeatherRoute env c rid).2 = 400
        ∨ (getWeatherRoute env c rid).2 = 404 ∨ (getWeatherRoute env c rid).2 = 502
        ∨ (getWeatherRoute env c rid).2 = 500) := by
  refine ⟨?_, ?_, ?_, ?_, ?_, ?_, ?_⟩
  · intro env c rid h
    unfold getWeatherRoute
    rw [if_pos h]
  · intro env c rid h1 h2
    unfold getWeatherRoute
    rw [if_neg h1, if_pos h2]
  · intro env c rid m h1 h2 hm hg
    unfold getWeatherRoute
    rw [if_neg h1, if_neg (not_lt.mpr h2)]
    unfold routeBody
    rw [hm, hg]
    rfl
  · intro env c rid m h1 h2 hm hg
    unfold getWeatherRoute
    rw [if_neg h1, if_neg (not_lt.mpr h2)]
    unfold routeBody
    rw [hm, hg]
    rfl
  · intro env c rid m coords h1 h2 hm hg hw
    unfold getWeatherRoute
    rw [if_neg h1, if_neg (not_lt.mpr h2)]
    unfold routeBody
    rw [hm, hg, hw]
    rfl
  · intro env c rid e h1 h2 hb hnc hng hnw
    unfold getWeatherRoute
    rw [if_neg h1, if_neg (not_lt.mpr h2), hb]
    cases e
    case cityNotFound m => exact absurd rfl (hnc m)
    case geocodingError m => exact absurd rfl (hng m)
    case weatherServiceError m => exact absurd rfl (hnw m)
    all_goals rfl
  · intro env c rid
    unfold getWeatherRoute
    by_cases h1 : pyStrip c = ""
    · rw [if_pos h1]
      tauto
    · rw [if_neg h1]
      by_cases h2 : 100 < (pyStrip c).length
      · rw [if_pos h2]
        tauto
      · rw [if_neg h2]
        rcases hb : routeBody env (pyStrip c) rid with e | r
        · cases e <;> simp
        · simp only [hb]
          have := routeBody_ok_status env (pyStrip c) rid r hb
          tauto


/-- Witness for C4 at concrete inputs: a blank city, a not-found city, a
failing weather fetch and an unclassified error each map to their specified
status and code. -/
theorem route_status_mapping_witness :
    getWeatherRoute ⟨Except.ok none, none, Except.error (Exc.cityNotFound "nf"),
        Except.error (Exc.other "unused")⟩ "   " "r"
      = (errorBody "MISSING_PARAMETER" "Missing required parameter: city" "r", 400)
    ∧ getWeatherRoute ⟨Except.ok none, none, Except.error (Exc.cityNotFound "nf"),
        Except.error (Exc.other "unused")⟩ "x" "r"
      = (errorBody "CITY_NOT_FOUND" "nf" "r", 404)
    ∧ getWeatherRoute ⟨Except.ok none, none,
        Except.ok ⟨Json.num 1, Json.num 2, Json.str "X", none, none⟩,
        Except.error (Exc.weatherServiceError "boom")⟩ "x" "r"
      = (errorBody "WEATHER_SERVICE_ERROR" "Failed to fetch weather data: boom" "r", 502)
    ∧ getWeatherRoute ⟨Except.ok none, none, Except.error (Exc.other "surprise"),
        Except.error (Exc.other "unused")⟩ "x" "r"
      = (errorBody "INTERNAL_ERROR" "An unexpected error occurred" "r", 500) := by
  refine ⟨?_, ?_, ?_, ?_⟩
  · exact route_status_mapping.1 ⟨Except.ok none, none, Except.error (Exc.cityNotFound "nf"),
      Except.error (Exc.other "unused")⟩ "   " "r" (by decide)
  · exact route_status_mapping.2.2.1 ⟨Except.ok none, none,
      Except.error (Exc.cityNotFound "nf"), Except.error (Exc.other "unused")⟩
      "x" "r" "nf" (by decide) (by decide) rfl rfl
  · exact route_status_mapping.2.2.2.2.1 ⟨Except.ok none, none,
      Except.ok ⟨Json.num 1, Json.num 2, Json.str "X", none, none⟩,
      Except.error (Exc.weatherServiceError "boom")⟩ "x" "r" "boom"
      ⟨Json.num 1, Json.num 2, Json.str "X", none, none⟩
      (by decide) (by decide) rfl rfl rfl
  · exact route_status_mapping.2.2.2.2.2.1 ⟨Except.ok none, none,
      Except.error (Exc.other "surprise"), Except.error (Exc.other "unused")⟩ "x" "r"
      (Exc.other "surprise") (by decide) (by decide) rfl
      (fun m h => Exc.noConfusion h) (fun m h => Exc.noConfusion h)
      (fun m h => Exc.noConfusion h)


/-- On a cache hit whose record is a JSON array, the hit path raises
`AttributeError` at `cached_data.get`. -/
theorem routeBody_hit_arr (env : PipelineEnv) (city rid : String) (l : List Json)
    (h : suppressedCache env.cacheGetOutcome = some (Json.arr l)) :
    routeBody env city rid
      = Except.error (Exc.other "AttributeError: value has no attribute get") := by
  unfold routeBody
  rw [h]
  rfl

/-- On a cache hit whose record is an object without `"coordinates"`, the
hit path raises `KeyError`. -/
theorem routeBody_hit_no_coordinates (env : PipelineEnv) (city rid : String) (fs : Dict)
    (h : suppressedCache env.cacheGetOutcome = some (Json.obj fs))
    (hn : dictGet fs "coordinates" = none) :
    routeBody env city rid = Except.error (Exc.other "KeyError: coordinates") := by
  unfold routeBody
  rw [h]
  simp only [exBind, pyGetAttrD, pyIndexStr, hn]
  rfl

/-- A body error outside the routed exception classes maps to 500. -/
theorem getWeatherRoute_valid_500 (env : PipelineEnv) (c rid : String) (msg : String)
    (h1 : pyStrip c ≠ "") (h2 : (pyStrip c).length ≤ 100)
    (hb : routeBody env (pyStrip c) rid = Except.error (Exc.other msg)) :
    getWeatherRoute env c rid
      = (errorBody "INTERNAL_ERROR" "An unexpected error occurred" rid, 500) := by
  unfold getWeatherRoute
  rw [if_neg h1, if_neg (not_lt.mpr h2), hb]

/-- Which stored values read back as a miss on a functioning store. -/
theorem cacheGet_none_classification (st : Store) (k : String)
    (h : cacheGet st k false = none) :
    storeLookup st (makeKey k) = none
    ∨ ∃ e, storeLookup st (makeKey k) = some e
        ∧ (e.val = StoredVal.corrupt ∨ e.val = StoredVal.json Json.null) := by
  unfold cacheGet at h
  rw [if_neg (by simp)] at h
  rcases hl : storeLookup st (makeKey k) with _ | e
  · exact Or.inl rfl
  · rw [hl] at h
    right
    refine ⟨e, rfl, ?_⟩
    rcases e with ⟨val, ttl⟩
    cases val with
    | corrupt => exact Or.inl rfl
    | json j =>
      cases j with
      | null => exact Or.inr rfl
      | bool b => simp at h
      | num n => simp at h
      | str s => simp at h
      | arr xs => simp at h
      | obj fields => simp at h


/-- C10 counterexample: the stored string `"null"` decodes successfully
(it is not corrupt), yet `CacheService.get` returns a miss and the pipeline
refetches (reaching geocoding and returning its 404) — refuting the claim
that only values failing JSON decoding are treated as misses. -/
theorem cached_null_counterexample :
    cacheGet [("weather:x", ⟨StoredVal.json Json.null, some 60⟩)] "x" false = none
    ∧ StoredVal.json Json.null ≠ StoredVal.corrupt
    ∧ (getWeatherPipeline [("weather:x", ⟨StoredVal.json Json.null, some 60⟩)] none
        (Except.error (Exc.cityNotFound "nf")) (Except.error (Exc.other "unused")) "x" "r").2
      = 404 := by
  refine ⟨rfl, ?_, rfl⟩
  intro h
  cases h

/-- C10 (amended): on a cache hit the pipeline indexes the cached record
without validating its shape, so a stored value that decodes to a JSON
array, or to an object missing `"coordinates"`, makes `GET /weather` return
500 `INTERNAL_ERROR` instead of treating the entry as a miss; and only
values that fail JSON decoding, or decode to JSON `null`, are treated as
misses. -/
theorem cache_hit_no_validation :
    (∀ (st : Store) (ttl : Option Nat) (geo : Except Exc Coordinates)
        (wea : Except Exc WeatherData) (c rid : String) (l : List Json),
      pyStrip c ≠ "" → (pyStrip c).length ≤ 100 →
      cacheGet st (pyLower (pyStrip c)) false = some (Json.arr l) →
      getWeatherPipeline st ttl geo wea c rid
        = (errorBody "INTERNAL_ERROR" "An unexpected error occurred" rid, 500))
    ∧ (∀ (st : Store) (ttl : Option Nat) (geo : Except Exc Coordinates)
        (wea : Except Exc WeatherData) (c rid : String) (fs : Dict),
      pyStrip c ≠ "" → (pyStrip c).length ≤ 100 →
      cacheGet st (pyLower (pyStrip c)) false = some (Json.obj fs) →
      dictGet fs "coordinates" = none →
      getWeatherPipeline st ttl geo wea c rid
        = (errorBody "INTERNAL_ERROR" "An unexpected error occurred" rid, 500))
    ∧ (∀ (st : Store) (k : String), cacheGet st k false = none →
        storeLookup st (makeKey k) = none
        ∨ ∃ e, storeLookup st (makeKey k) = some e
            ∧ (e.val = StoredVal.corrupt ∨ e.val = StoredVal.json Json.null)) := by
  refine ⟨?_, ?_, cacheGet_none_classification⟩
  · intro st ttl geo wea c rid l h1 h2 hcache
    unfold getWeatherPipeline
    apply getWeatherRoute_valid_500 _ _ _ _ h1 h2
    apply routeBody_hit_arr
    show suppressedCache (Except.ok (cacheGet st (pyLower (pyStrip c)) false))
      = some (Json.arr l)
    unfold suppressedCache
    rw [hcache]
  · intro st ttl geo wea c rid fs h1 h2 hcache hn
    unfold getWeatherPipeline
    apply getWeatherRoute_valid_500 _ _ _ _ h1 h2
    apply routeBody_hit_no_coordinates _ _ _ fs _ hn
    show suppressedCache (Except.ok (cacheGet st (pyLower (pyStrip c)) false))
      = some (Json.obj fs)
    unfold suppressedCache
    rw [hcache]

/-- Witness for C10 (amended) at two concrete malformed cache records. -/
theorem cache_hit_no_validation_witness :
    getWeatherPipeline [("weather:x", ⟨StoredVal.json (Json.arr []), some 60⟩)] none
        (Except.error (Exc.cityNotFound "nf")) (Except.error (Exc.other "unused")) "x" "r"
      = (errorBody "INTERNAL_ERROR" "An unexpected error occurred" "r", 500)
    ∧ getWeatherPipeline
        [("weather:x", ⟨StoredVal.json (Json.obj [("city", Json.str "x")]), some 60⟩)] none
        (Except.error (Exc.cityNotFound "nf")) (Except.error (Exc.other "unused")) "x" "r"
      = (errorBody "INTERNAL_ERROR" "An unexpected error occurred" "r", 500) := by
  constructor
  · exact cache_hit_no_validation.1
      [("weather:x", ⟨StoredVal.json (Json.arr []), some 60⟩)] none
      (Except.error (Exc.cityNotFound "nf")) (Except.error (Exc.other "unused")) "x" "r" []
      (by decide) (by decide) rfl
  · exact cache_hit_no_validation.2.1
      [("weather:x", ⟨StoredVal.json (Json.obj [("city", Json.str "x")]), some 60⟩)] none
      (Except.error (Exc.cityNotFound "nf")) (Except.error (Exc.other "unused")) "x" "r"
      [("city", Json.str "x")] (by decide) (by decide) rfl rfl


/-- Every exception class the retry decorator would retry on is translated
away inside `_fetch_weather_data` before it can reach the decorator. -/
theorem retryEligible_weatherTranslate (e : Exc) :
    retryEligible (weatherTranslate e) = false := by
  cases e <;> rfl

/-- Every retry-eligible exception class is translated away inside
`_fetch_geocoding_data` before it can reach the decorator. -/
theorem retryEligible_geocodingTranslate (e : Exc) :
    retryEligible (geocodingTranslate e) = false := by
  cases e <;> rfl

/-- A retried body none of whose raised errors is retry-eligible runs
exactly once, whatever the attempt budget. -/
theorem retryGo_no_retry (body : FetchState → FetchState × Except Exc α)
    (hb : ∀ st e, (body st).2 = Except.error e → retryEligible e = false) :
    ∀ (fuel : Nat) (st : FetchState), retryGo body fuel st = body st := by
  intro fuel
  match fuel with
  | 0 => intro st; rfl
  | 1 => intro st; rfl
  | Nat.succ (Nat.succ n) =>
    intro st
    rcases hbs : body st with ⟨st', r⟩
    cases r with
    | ok a => simp [retryGo, hbs]
    | error e =>
      have he : retryEligible e = false := hb st e (by rw [hbs])
      simp [retryGo, hbs, he]

/-- The errors a fetch body raises are never retry-eligible once translated. -/
theorem fetchOnce_error_not_retryable (cfg : BreakerConfig) (translate : Exc → Exc)
    (htr : ∀ e, retryEligible (translate e) = false) (st : FetchState) (e : Exc)
    (h : (fetchOnce cfg translate st).2 = Except.error e) : retryEligible e = false := by
  unfold fetchOnce at h
  rcases hB : breakerCall cfg st.now st.breaker
      (st.pending.headD (Except.error (Exc.other "no scripted outcome"))) with ⟨bst, r, inv⟩
  rw [hB] at h
  cases r with
  | ok d => simp at h
  | error e2 =>
    simp only at h
    injection h with h
    rw [← h]
    exact htr e2

/-- `_fetch_weather_data` performs exactly one attempt: the exception
translation inside the retried function leaves the retry decorator nothing
to retry on. -/
theorem fetchWeatherData_no_retry (cfg : BreakerConfig) (maxA : Nat) (st : FetchState) :
    fetchWeatherData cfg maxA st = fetchOnce cfg weatherTranslate st :=
  retryGo_no_retry (fetchOnce cfg weatherTranslate)
    (fun st e h =>
      fetchOnce_error_not_retryable cfg weatherTranslate retryEligible_weatherTranslate st e h)
    maxA st

/-- `_fetch_geocoding_data` performs exactly one attempt, for the same
reason as the weather fetch. -/
theorem fetchGeocodingData_no_retry (cfg : BreakerConfig) (maxA : Nat) (st : FetchState) :
    fetchGeocodingData cfg maxA st = fetchOnce cfg geocodingTranslate st :=
  retryGo_no_retry (fetchOnce cfg geocodingTranslate)
    (fun st e h =>
      fetchOnce_error_not_retryable cfg geocodingTranslate retryEligible_geocodingTranslate
        st e h)
    maxA st


/-- One fetch body execution moves a closed breaker to `closed 0` (success),
`closed (n+1)` (failure below the threshold) or `opened` (failure reaching
the threshold), and invokes the HTTP request at most once. -/
theorem fetchOnce_closed_delta (cfg : BreakerConfig) (translate : Exc → Exc)
    (st : FetchState) (n : Nat) (h : st.breaker = BState.closed n) :
    ((fetchOnce cfg translate st).1.breaker = BState.closed 0
      ∨ ((fetchOnce cfg translate st).1.breaker = BState.closed (n + 1) ∧ n + 1 < cfg.failMax)
      ∨ ((fetchOnce cfg translate st).1.breaker = BState.opened st.now ∧ cfg.failMax ≤ n + 1))
    ∧ (fetchOnce cfg translate st).1.invoked ≤ st.invoked + 1 := by
  unfold fetchOnce
  rcases ho : st.pending.headD (Except.error (Exc.other "no scripted outcome")) with e | d
  all_goals rw [h]
  · by_cases hf : cfg.failMax ≤ n + 1
    · have hbc : breakerCall cfg st.now (BState.closed n) (Except.error e : Except Exc Dict)
          = ⟨BState.opened st.now, Except.error Exc.circuitBreakerError, true⟩ := by
        show (if cfg.failMax ≤ n + 1 then
                (⟨BState.opened st.now, Except.error Exc.circuitBreakerError, true⟩
                  : CallResult Dict)
              else ⟨BState.closed (n + 1), Except.error e, true⟩) = _
        rw [if_pos hf]
      rw [hbc]
      refine ⟨Or.inr (Or.inr ⟨?_, hf⟩), ?_⟩ <;> simp [fetchAdvance]
    · have hbc : breakerCall cfg st.now (BState.closed n) (Except.error e : Except Exc Dict)
          = ⟨BState.closed (n + 1), Except.error e, true⟩ := by
        show (if cfg.failMax ≤ n + 1 then
                (⟨BState.opened st.now, Except.error Exc.circuitBreakerError, true⟩
                  : CallResult Dict)
              else ⟨BState.closed (n + 1), Except.error e, true⟩) = _
        rw [if_neg hf]
      rw [hbc]
      refine ⟨Or.inr (Or.inl ⟨?_, by omega⟩), ?_⟩ <;> simp [fetchAdvance]
  · have hbc : breakerCall cfg st.now (BState.closed n) (Except.ok d : Except Exc Dict)
        = ⟨BState.closed 0, Except.ok d, true⟩ := rfl
    rw [hbc]
    refine ⟨Or.inl ?_, ?_⟩ <;> simp [fetchAdvance]

/-- `get_weather`'s post-fetch processing does not touch the fetch state. -/
theorem wsGetWeather_fst (cfg : BreakerConfig) (maxA : Nat) (st : FetchState) :
    (wsGetWeather cfg maxA st).1 = (fetchWeatherData cfg maxA st).1 := by
  unfold wsGetWeather
  rcases hf : fetchWeatherData cfg maxA st with ⟨st1, r⟩
  cases r with
  | ok d => rfl
  | error e => cases e <;> rfl

/-- `city_to_coords` either rejects the input before fetching or passes the
fetch state through unchanged. -/
theorem cityToCoords_fst (cfg : BreakerConfig) (maxA : Nat) (city : String) (st : FetchState) :
    (cityToCoords cfg maxA city st).1 = st
    ∨ (cityToCoords cfg maxA city st).1 = (fetchGeocodingData cfg maxA st).1 := by
  unfold cityToCoords
  by_cases hc : city = "" ∨ pyStrip city = ""
  · rw [if_pos hc]
    exact Or.inl rfl
  · rw [if_neg hc]
    right
    rcases hf : fetchGeocodingData cfg maxA st with ⟨st1, r⟩
    cases r with
    | ok d => rfl
    | error e => cases e <;> rfl

/-- C2: one logical client call — one `WeatherService.get_weather` or one
`GeocodingService.city_to_coords` — moves the breaker's consecutive-failure
counter by at most one: starting closed with `n` failures it ends at
`closed 0`, at `closed (n+1)` (only below `fail_max`), opens exactly when
`n+1` reaches `fail_max`, or is left untouched; and the underlying HTTP
request is invoked at most once per logical call. -/
theorem breaker_single_failure_credit (cfg : BreakerConfig) (maxA : Nat) (st : FetchState)
    (n : Nat) (city : String) (h : st.breaker = BState.closed n) :
    (((wsGetWeather cfg maxA st).1.breaker = BState.closed 0
        ∨ ((wsGetWeather cfg maxA st).1.breaker = BState.closed (n + 1) ∧ n + 1 < cfg.failMax)
        ∨ ((wsGetWeather cfg maxA st).1.breaker = BState.opened st.now ∧ cfg.failMax ≤ n + 1))
      ∧ (wsGetWeather cfg maxA st).1.invoked ≤ st.invoked + 1)
    ∧ (((cityToCoords cfg maxA city st).1.breaker = st.breaker
        ∨ (cityToCoords cfg maxA city st).1.breaker = BState.closed 0
        ∨ ((cityToCoords cfg maxA city st).1.breaker = BState.closed (n + 1)
            ∧ n + 1 < cfg.failMax)
        ∨ ((cityToCoords cfg maxA city st).1.breaker = BState.opened st.now
            ∧ cfg.failMax ≤ n + 1))
      ∧ (cityToCoords cfg maxA city st).1.invoked ≤ st.invoked + 1) := by
  constructor
  · rw [wsGetWeather_fst, fetchWeatherData_no_retry]
    exact fetchOnce_closed_delta cfg weatherTranslate st n h
  · rcases cityToCoords_fst cfg maxA city st with hc | hc
    · rw [hc]
      exact ⟨Or.inl rfl, Nat.le_succ _⟩
    · rw [hc, fetchGeocodingData_no_retry]
      have hd := fetchOnce_closed_delta cfg geocodingTranslate st n h
      exact ⟨Or.inr hd.1, hd.2⟩

/-- Witness for C2: a flaky call with three scripted timeouts still moves
the default breaker by exactly one failure. -/
theorem breaker_single_failure_credit_witness :
    ((wsGetWeather defaultBreakerConfig 3
        ⟨BState.closed 0, [Except.error Exc.httpxTimeout, Except.error Exc.httpxTimeout,
          Except.error Exc.httpxTimeout], 0, 0⟩).1.breaker = BState.closed 0
      ∨ ((wsGetWeather defaultBreakerConfig 3
          ⟨BState.closed 0, [Except.error Exc.httpxTimeout, Except.error Exc.httpxTimeout,
            Except.error Exc.httpxTimeout], 0, 0⟩).1.breaker = BState.closed 1
          ∧ 1 < defaultBreakerConfig.failMax)
      ∨ ((wsGetWeather defaultBreakerConfig 3
          ⟨BState.closed 0, [Except.error Exc.httpxTimeout, Except.error Exc.httpxTimeout,
            Except.error Exc.httpxTimeout], 0, 0⟩).1.breaker = BState.opened 0
          ∧ defaultBreakerConfig.failMax ≤ 1)) := by
  have h := breaker_single_failure_credit defaultBreakerConfig 3
    ⟨BState.closed 0, [Except.error Exc.httpxTimeout, Except.error Exc.httpxTimeout,
      Except.error Exc.httpxTimeout], 0, 0⟩ 0 "Berlin" rfl
  exact h.1.1


/-- C1 (code bug): with the default configuration (`retry_max_attempts = 3`)
and a transient failure on the first attempt followed by a would-be success,
the claim predicts an overall success after exactly two HTTP invocations;
instead both fetches raise their translated service error after exactly one
invocation, because the `except` clauses inside the retried functions
convert every retry-eligible `httpx` exception before the decorator sees
it. -/
theorem transient_error_not_retried :
    1 < defaultRetryMaxAttempts
    ∧ ((fetchWeatherData defaultBreakerConfig defaultRetryMaxAttempts
        ⟨BState.closed 0, [Except.error Exc.httpxTimeout,
          Except.ok [("current", Json.obj [])]], 0, 0⟩).2
      = Except.error (Exc.weatherServiceError "Weather request timed out"))
    ∧ ((fetchWeatherData defaultBreakerConfig defaultRetryMaxAttempts
        ⟨BState.closed 0, [Except.error Exc.httpxTimeout,
          Except.ok [("current", Json.obj [])]], 0, 0⟩).1.invoked = 1)
    ∧ ((fetchGeocodingData defaultBreakerConfig defaultRetryMaxAttempts
        ⟨BState.closed 0, [Except.error (Exc.httpxStatus 500),
          Except.ok [("results", Json.arr [Json.obj []])]], 0, 0⟩).2
      = Except.error (Exc.geocodingError "Geocoding API error: 500"))
    ∧ ((fetchGeocodingData defaultBreakerConfig defaultRetryMaxAttempts
        ⟨BState.closed 0, [Except.error (Exc.httpxStatus 500),
          Except.ok [("results", Json.arr [Json.obj []])]], 0, 0⟩).1.invoked = 1) :=
  ⟨by decide, rfl, rfl, rfl, rfl⟩

/-- A sequence of breaker calls whose wrapped operation fails each time,
at the given timestamps. -/
def runFailures (cfg : BreakerConfig) (steps : List (Nat × Exc)) (st : BState) : BState :=
  steps.foldl
    (fun s p => (breakerCall cfg p.1 s (Except.error p.2 : Except Exc Dict)).state) st

/-- A failure in the closed state: count it, opening at the threshold. -/
theorem breakerCall_closed_error (cfg : BreakerConfig) (now n : Nat) (e : Exc) :
    breakerCall cfg now (BState.closed n) (Except.error e : Except Exc Dict)
      = if cfg.failMax ≤ n + 1 then
          ⟨BState.opened now, Except.error Exc.circuitBreakerError, true⟩
        else ⟨BState.closed (n + 1), Except.error e, true⟩ := rfl

/-- Below the threshold, consecutive failures accumulate in `closed`. -/
theorem runFailures_stays_closed (cfg : BreakerConfig) :
    ∀ (steps : List (Nat × Exc)) (n : Nat), n + steps.length < cfg.failMax →
      runFailures cfg steps (BState.closed n) = BState.closed (n + steps.length) := by
  intro steps
  induction steps with
  | nil => intro n h; simp [runFailures]
  | cons p steps ih =>
    intro n h
    rw [List.length_cons] at h
    have hlt : ¬ cfg.failMax ≤ n + 1 := by omega
    simp only [runFailures, List.foldl_cons]
    rw [breakerCall_closed_error, if_neg hlt]
    have h2 := ih (n + 1) (by omega)
    simp only [runFailures] at h2
    rw [h2, List.length_cons]
    congr 1
    omega


/-- C3: the breaker state machine: fewer than `fail_max` consecutive
failures from a fresh breaker leave it closed, exactly `fail_max` leave it
open (stamped with the last failure's time); while open and before
`reset_timeout` elapses every call fails immediately with the circuit-open
error without invoking the operation; a success while closed resets the
counter to zero; once `reset_timeout` has elapsed the single probing call is
let through — success closes the breaker, failure re-opens it (after which
the fail-fast clause applies again, so only that one probe ran). -/
theorem breaker_state_machine :
    (∀ (cfg : BreakerConfig) (steps : List (Nat × Exc)), steps.length < cfg.failMax →
      runFailures cfg steps (BState.closed 0) = BState.closed steps.length)
    ∧ (∀ (cfg : BreakerConfig) (steps : List (Nat × Exc)) (last : Nat × Exc),
        (steps ++ [last]).length = cfg.failMax →
        runFailures cfg (steps ++ [last]) (BState.closed 0) = BState.opened last.1)
    ∧ (∀ (cfg : BreakerConfig) (t now : Nat) (outcome : Except Exc Dict),
        now < t + cfg.resetTimeout →
        breakerCall cfg now (BState.opened t) outcome
          = ⟨BState.opened t, Except.error Exc.circuitBreakerError, false⟩)
    ∧ (∀ (cfg : BreakerConfig) (now n : Nat) (d : Dict),
        breakerCall cfg now (BState.closed n) (Except.ok d : Except Exc Dict)
          = ⟨BState.closed 0, Except.ok d, true⟩)
    ∧ (∀ (cfg : BreakerConfig) (t now : Nat) (outcome : Except Exc Dict),
        t + cfg.resetTimeout ≤ now →
        (breakerCall cfg now (BState.opened t) outcome).invokedOp = true
        ∧ (∀ d, outcome = Except.ok d →
            breakerCall cfg now (BState.opened t) outcome
              = ⟨BState.closed 0, Except.ok d, true⟩)
        ∧ (∀ e, outcome = Except.error e →
            breakerCall cfg now (BState.opened t) outcome
              = ⟨BState.opened now, Except.error Exc.circuitBreakerError, true⟩)) := by
  refine ⟨?_, ?_, ?_, fun cfg now n d => rfl, ?_⟩
  · intro cfg steps h
    have := runFailures_stays_closed cfg steps 0 (by omega)
    rw [this, Nat.zero_add]
  · intro cfg steps last h
    rw [List.length_append, List.length_cons, List.length_nil] at h
    simp only [runFailures, List.foldl_append, List.foldl_cons, List.foldl_nil]
    have hcl := runFailures_stays_closed cfg steps 0 (by omega)
    simp only [runFailures] at hcl
    rw [hcl, Nat.zero_add, breakerCall_closed_error, if_pos (by omega)]
  · intro cfg t now outcome h
    show (if now < t + cfg.resetTimeout then
            (⟨BState.opened t, Except.error Exc.circuitBreakerError, false⟩ : CallResult Dict)
          else halfOpenCall now outcome) = _
    rw [if_pos h]
  · intro cfg t now outcome h
    have hred : breakerCall cfg now (BState.opened t) outcome = halfOpenCall now outcome := by
      show (if now < t + cfg.resetTimeout then
              (⟨BState.opened t, Except.error Exc.circuitBreakerError, false⟩ : CallResult Dict)
            else halfOpenCall now outcome) = _
      rw [if_neg (not_lt.mpr h)]
    rw [hred]
    refine ⟨?_, ?_, ?_⟩
    · cases outcome <;> rfl
    · intro d hd
      rw [hd]
      rfl
    · intro e he
      rw [he]
      rfl

/-- Witness for C3 with `fail_max = 2`, `reset_timeout = 60`. -/
theorem breaker_state_machine_witness :
    runFailures ⟨2, 60⟩ [(0, Exc.httpxTimeout)] (BState.closed 0) = BState.closed 1
    ∧ runFailures ⟨2, 60⟩ [(0, Exc.httpxTimeout), (1, Exc.httpxConnect)] (BState.closed 0)
        = BState.opened 1
    ∧ breakerCall ⟨2, 60⟩ 30 (BState.opened 1) (Except.ok [] : Except Exc Dict)
        = ⟨BState.opened 1, Except.error Exc.circuitBreakerError, false⟩
    ∧ breakerCall ⟨2, 60⟩ 10 (BState.closed 1) (Except.ok [] : Except Exc Dict)
        = ⟨BState.closed 0, Except.ok [], true⟩
    ∧ breakerCall ⟨2, 60⟩ 61 (BState.opened 1) (Except.error Exc.httpxTimeout : Except Exc Dict)
        = ⟨BState.opened 61, Except.error Exc.circuitBreakerError, true⟩ := by
  refine ⟨?_, ?_, ?_, ?_, ?_⟩
  · exact breaker_state_machine.1 ⟨2, 60⟩ [(0, Exc.httpxTimeout)] (by decide)
  · exact breaker_state_machine.2.1 ⟨2, 60⟩ [(0, Exc.httpxTimeout)] (1, Exc.httpxConnect)
      (by decide)
  · exact breaker_state_machine.2.2.1 ⟨2, 60⟩ 1 30 (Except.ok []) (by decide)
  · exact breaker_state_machine.2.2.2.1 ⟨2, 60⟩ 10 1 []
  · exact (breaker_state_machine.2.2.2.2 ⟨2, 60⟩ 1 61
      (Except.error Exc.httpxTimeout) (by decide)).2.2 Exc.httpxTimeout rfl

end MeteoProxy
